import Mathlib

/-!
# Verification of `pytransform3d.compatibility`

A shallow embedding of `src/pytransform3d/compatibility.py`, the optional
runtime dependency registry of pytransform3d, together with proofs about its
version handling, descriptor construction, and import-resolution policy.

The external semantic-version library (`packaging.version`) is out of scope of
the repository and is modelled by the interface the specification assigns to
it: parsing a version string either succeeds, or fails (the library raises
`InvalidVersion`); the empty version `Version("")` is the lowest-ranked
sentinel, comparing strictly below every successfully parsed version.

The host import mechanism (`importlib.import_module`) is likewise modelled by
its interface: an environment maps an import name either to a live module
(which may carry a `__version__` attribute) or to an import failure
(`ImportError`), which descriptor construction must treat as a normal,
non-fatal outcome.
-/

namespace Compatibility

/-- Modelled from the spec: a value of the external version library.
`Version.empty` is the sentinel produced for absent or unparsable input
(the lowest-ranked "empty version"); `Version.parsed r` is a successfully
parsed version with release segments `r`. -/
inductive Version where
  | empty : Version
  | parsed : List Nat → Version
  deriving DecidableEq

/-- Lexicographic comparison of release segment lists; a missing segment
counts as zero (so `1.0` and `1` compare equal), per semantic versioning. -/
def releaseLt : List Nat → List Nat → Bool
  | [], [] => false
  | [], b :: bs => if 0 < b then true else releaseLt [] bs
  | a :: as, [] => if 0 < a then false else releaseLt as []
  | a :: as, b :: bs =>
    if a < b then true else if b < a then false else releaseLt as bs
termination_by a b => a.length + b.length

/-- Modelled from the spec: the strict order of the external version library.
The sentinel empty version compares strictly below every parsed version;
parsed versions compare by their release segments. -/
def Version.lt : Version → Version → Bool
  | .empty, .empty => false
  | .empty, .parsed _ => true
  | .parsed _, .empty => false
  | .parsed a, .parsed b => releaseLt a b

/-- Whether a version is the sentinel empty version. -/
def Version.isEmpty : Version → Bool
  | .empty => true
  | .parsed _ => false

/-- Rendering of a version back to a string (`str(version)` in the source):
the sentinel renders as the empty string, a parsed version as its
dot-separated release segments. -/
def Version.str : Version → String
  | .empty => ""
  | .parsed r => String.intercalate "." (r.map toString)

/-- Split a character list into chunks at every dot separator (mirroring
`splitOn "."`: the empty input yields one empty chunk). -/
def splitDots : List Char → List (List Char)
  | [] => [[]]
  | c :: cs =>
    if c = '.' then [] :: splitDots cs
    else
      match splitDots cs with
      | [] => [[c]]
      | chunk :: rest => (c :: chunk) :: rest

/-- Read a run of decimal digits, accumulating its value; any non-digit
character makes the whole chunk unparsable. -/
def digitsToNat (acc : Nat) : List Char → Option Nat
  | [] => some acc
  | c :: cs =>
    if c.isDigit then digitsToNat (10 * acc + (c.toNat - 48)) cs else none

/-- Parse one release segment: a non-empty run of decimal digits. -/
def chunkToNat (cs : List Char) : Option Nat :=
  match cs with
  | [] => none
  | _ :: _ => digitsToNat 0 cs

/-- Parse every release segment, failing if any segment fails. -/
def parseChunks : List (List Char) → Option (List Nat)
  | [] => some []
  | c :: cs =>
    match chunkToNat c, parseChunks cs with
    | some n, some ns => some (n :: ns)
    | _, _ => none

/-- Modelled from the spec: `packaging.version.parse`. A dotted sequence of
numeric segments parses to `Version.parsed`; anything else fails (`none`
models the library raising `InvalidVersion`). -/
def libParse (s : String) : Option Version :=
  (parseChunks (splitDots s.data)).map Version.parsed

/-- `_parse_version(version_string)` from the source: start from the sentinel
empty version; if the input is non-null, try to parse it, absorbing a parse
failure by returning the sentinel. Total: never raises. -/
def _parse_version (version_string : Option String) : Version :=
  let version := Version.empty
  match version_string with
  | none => version
  | some s =>
    match libParse s with
    | none => version
    | some v => v

/-- A live Python module as seen by this code: its import name and its
optional `__version__` attribute. -/
structure Module where
  name : String
  version_attr : Option String
  deriving DecidableEq

/-- The runtime environment: `importlib.import_module` returns the module for
an import name, or fails with `ImportError` (modelled as `none`). -/
def Env : Type := String → Option Module

/-- `PACKAGE_NAME` from the source (first component of `__name__`). -/
def PACKAGE_NAME : String := "pytransform3d"

/-- The `PythonDependency` frozen dataclass: all fields after
`__post_init__` has run. -/
structure PythonDependency where
  install_name : String
  import_name : String
  min_version : Version
  is_installed : Bool
  is_old : Bool
  module : Option Module
  version : Version
  missing_error_message : String
  too_old_error_message : String

/-- Construction of a `PythonDependency` (the dataclass `__init__` followed
by `__post_init__`), in the order of the source: resolve the effective import
name, attempt the import (an `ImportError` is caught and leaves the module
`none`), record installation, synthesize the missing-dependency message,
parse the reported version of the module and the required minimum, and flag and
describe an outdated version. -/
def mkPythonDependency (env : Env) (install_name : String)
    (im : Option String) (mv : Option String) : PythonDependency :=
  let import_name := im.getD install_name
  let module : Option Module := env import_name
  let is_installed := module.isSome
  let missing_error_message :=
    "Missing optional dependency \x27" ++ install_name ++ "\x27 for " ++
      PACKAGE_NAME ++ ". Use pip or conda to install " ++ install_name ++ "."
  let version := _parse_version (module.bind Module.version_attr)
  let min_version := _parse_version mv
  let is_old := Version.lt version min_version
  let too_old_error_message :=
    if is_old then
      PACKAGE_NAME ++ " requires version \x27" ++ Version.str min_version ++
        "\x27 of " ++ install_name ++ ". Use pip or conda to install " ++
        install_name ++ "==" ++ Version.str min_version ++ ". (version \x27" ++
        Version.str version ++ "\x27 is currently installed)"
    else ""
  { install_name := install_name
    import_name := import_name
    min_version := min_version
    is_installed := is_installed
    is_old := is_old
    module := module
    version := version
    missing_error_message := missing_error_message
    too_old_error_message := too_old_error_message }

/-- The `OptionalImportErrorHandling` enum. -/
inductive OptionalImportErrorHandling where
  | RAISE : OptionalImportErrorHandling
  | WARN : OptionalImportErrorHandling
  | IGNORE : OptionalImportErrorHandling
  deriving DecidableEq

/-- Python attribute access `error_handling.RAISE`: looking the member
`RAISE` up through any member of the enum yields the class member `RAISE`,
independent of the receiver. -/
def attrRAISE (eh : OptionalImportErrorHandling) : OptionalImportErrorHandling :=
  let _ := eh
  OptionalImportErrorHandling.RAISE

/-- Python attribute access `error_handling.WARN` (see `attrRAISE`). -/
def attrWARN (eh : OptionalImportErrorHandling) : OptionalImportErrorHandling :=
  let _ := eh
  OptionalImportErrorHandling.WARN

/-- Python attribute access `error_handling.IGNORE` (see `attrRAISE`). -/
def attrIGNORE (eh : OptionalImportErrorHandling) : OptionalImportErrorHandling :=
  let _ := eh
  OptionalImportErrorHandling.IGNORE

/-- Python truthiness of an `OptionalImportErrorHandling` member: enum
members define no `__bool__` or `__len__`, so every member is truthy. -/
def truthy (eh : OptionalImportErrorHandling) : Bool :=
  let _ := eh
  true

/-- The observable outcome of a call to `import_optional_dependency`: either
an `ImportError` was raised carrying a message, or the call returned a value
after emitting the listed warnings. -/
inductive ResolveOutcome where
  | raised : String → ResolveOutcome
  | returned : List String → Option Module → ResolveOutcome
  deriving DecidableEq

/-- `import_optional_dependency(module, error_handling=...)` from the source.
The three policy tests are embedded exactly as written: each tests the
truthiness of an attribute access on the passed member
(`if error_handling.RAISE:` and so on), not equality with it. -/
def import_optional_dependency (m : PythonDependency)
    (error_handling : OptionalImportErrorHandling) : ResolveOutcome :=
  let message := m.missing_error_message
  let message := if m.is_old then m.too_old_error_message else message
  if !m.is_installed || m.is_old then
    if truthy (attrRAISE error_handling) then
      ResolveOutcome.raised message
    else if truthy (attrWARN error_handling) then
      ResolveOutcome.returned [message] none
    else if truthy (attrIGNORE error_handling) then
      ResolveOutcome.returned [] none
    else
      ResolveOutcome.returned [] m.module
  else
    ResolveOutcome.returned [] m.module

/-- The module-level singleton descriptors, parameterized by the runtime
environment they probe at module load. -/
def matplotlib_module (env : Env) : PythonDependency :=
  mkPythonDependency env "matplotlib" none none

/-- `trimesh_module` from the source. -/
def trimesh_module (env : Env) : PythonDependency :=
  mkPythonDependency env "trimesh" none none

/-- `beatifulsoap4_module` from the source (installs as `beautifulsoup4`,
imports as `bs4`). -/
def beatifulsoap4_module (env : Env) : PythonDependency :=
  mkPythonDependency env "beautifulsoup4" (some "bs4") none

/-- `lxml_module` from the source. -/
def lxml_module (env : Env) : PythonDependency :=
  mkPythonDependency env "lxml" none none

/-- `opend3d_module` from the source. -/
def opend3d_module (env : Env) : PythonDependency :=
  mkPythonDependency env "open3d" none none

/-- `scipy_module` from the source. -/
def scipy_module (env : Env) : PythonDependency :=
  mkPythonDependency env "scipy" none none

/-- `pydot_module` from the source. -/
def pydot_module (env : Env) : PythonDependency :=
  mkPythonDependency env "pydot" none none

/-- `numpydoc_module` from the source (the source passes the string
`"numpydoc_module"` as the install name). -/
def numpydoc_module (env : Env) : PythonDependency :=
  mkPythonDependency env "numpydoc_module" none none

/-- `sphinx_module` from the source (the source passes the string
`"sphinx_module"` as the install name). -/
def sphinx_module (env : Env) : PythonDependency :=
  mkPythonDependency env "sphinx_module" none none

/-- `sphinx_gallery_module` from the source. -/
def sphinx_gallery_module (env : Env) : PythonDependency :=
  mkPythonDependency env "sphinx-gallery" none none

/-- `sphinx_bootstrap_theme_module` from the source. -/
def sphinx_bootstrap_theme_module (env : Env) : PythonDependency :=
  mkPythonDependency env "sphinx-bootstrap-theme" none none

/-- `pytest_module` from the source. -/
def pytest_module (env : Env) : PythonDependency :=
  mkPythonDependency env "pytest" none none

/-- `pytest_cov_module` from the source. -/
def pytest_cov_module (env : Env) : PythonDependency :=
  mkPythonDependency env "pytest-cov" none none

/-- `pyqt5_module` from the source. -/
def pyqt5_module (env : Env) : PythonDependency :=
  mkPythonDependency env "PyQt5" none none

/-- The `_optional_dependencies` registry: feature-group name to its
descriptors, in declaration order (Python dict order). -/
def _optional_dependencies (env : Env) : List (String × List PythonDependency) :=
  [ ("plotting_2d", [matplotlib_module env])
  , ("plotting_3d", [trimesh_module env])
  , ("editor", [pyqt5_module env, matplotlib_module env])
  , ("urdf", [beatifulsoap4_module env, lxml_module env])
  , ("rendering", [opend3d_module env])
  , ("transform_manager", [scipy_module env])
  , ("graph_visualization", [pydot_module env])
  , ("documentation",
      [ numpydoc_module env, sphinx_module env, sphinx_gallery_module env
      , sphinx_bootstrap_theme_module env ])
  , ("tests", [pytest_module env, pytest_cov_module env]) ]

/-- `get_optional_dependencies_for_setup_py()` from the source: map each
feature group to the tuple of install names of its descriptors. -/
def get_optional_dependencies_for_setup_py (env : Env) :
    List (String × List String) :=
  (_optional_dependencies env).map
    (fun kv => (kv.1, kv.2.map PythonDependency.install_name))

/-! ## Helper lemmas -/

/-- No version compares strictly below the sentinel empty version. -/
theorem Version.lt_empty_right (v : Version) : Version.lt v Version.empty = false := by
  cases v <;> rfl

/-- If something compares strictly below `w`, then `w` is not the sentinel. -/
theorem Version.lt_right_ne_empty {v w : Version} (h : Version.lt v w = true) :
    w ≠ Version.empty := by
  intro hw
  rw [hw, Version.lt_empty_right] at h
  exact Bool.false_ne_true h

/-- The sentinel compares strictly below exactly the non-sentinel versions. -/
theorem Version.empty_lt_iff_not_isEmpty (w : Version) :
    Version.lt Version.empty w = !w.isEmpty := by
  cases w <;> rfl

/-- A successful library parse always yields a `Version.parsed`. -/
theorem libParse_eq_some {s : String} {v : Version}
    (h : libParse s = some v) : ∃ r : List Nat, v = Version.parsed r := by
  unfold libParse at h
  cases hm : parseChunks (splitDots s.data) with
  | none => rw [hm] at h; simp at h
  | some r => rw [hm] at h; simp at h; exact ⟨r, h.symm⟩

/-- Appending to the right of a non-empty string is non-empty. -/
theorem append_ne_empty_left (a b : String) (h : a ≠ "") : a ++ b ≠ "" := by
  intro hc
  apply h
  have hl := congrArg String.length hc
  rw [String.length_append] at hl
  have ha : a.length = 0 := Nat.eq_zero_of_add_eq_zero_right hl
  cases a with
  | mk data =>
    cases data with
    | nil => rfl
    | cons c cs => simp [String.length] at ha

/-! ## Claim theorems -/

/-- C2: for every input version string (null, unparsable, or valid),
`_parse_version` returns normally (it is a total function by construction);
on null input, and on non-null input the library fails to parse, it returns
the sentinel empty Version. -/
theorem parse_version_absorbs_failure :
    _parse_version none = Version.empty ∧
    ∀ s : String, libParse s = none → _parse_version (some s) = Version.empty := by
  refine ⟨rfl, fun s h => ?_⟩
  simp [_parse_version, h]

/-- Witness for C2 at the concrete unparsable string `"not a version"`. -/
theorem parse_version_absorbs_failure_witness :
    _parse_version none = Version.empty ∧
    _parse_version (some "not a version") = Version.empty :=
  ⟨parse_version_absorbs_failure.1,
   parse_version_absorbs_failure.2 "not a version" rfl⟩

/-- C7: the sentinel empty Version compares strictly less than every Version
produced by a successful library parse (and never the other way round). -/
theorem sentinel_below_every_parsed (s : String) (v : Version)
    (h : libParse s = some v) :
    Version.lt Version.empty v = true ∧ Version.lt v Version.empty = false := by
  obtain ⟨r, rfl⟩ := libParse_eq_some h
  exact ⟨rfl, rfl⟩

/-- Witness for C7 at the concrete version string `"1.2.3"`. -/
theorem sentinel_below_every_parsed_witness :
    libParse "1.2.3" = some (Version.parsed [1, 2, 3]) ∧
    (Version.lt Version.empty (Version.parsed [1, 2, 3]) = true ∧
     Version.lt (Version.parsed [1, 2, 3]) Version.empty = false) :=
  ⟨rfl, sentinel_below_every_parsed "1.2.3" (Version.parsed [1, 2, 3]) rfl⟩

/-- C3 counterexample: a descriptor for a package absent from the
environment, constructed with a declared minimum version, is flagged old
(`is_old = true`) although it was never found (`is_installed = false`). -/
theorem is_old_without_installed :
    (mkPythonDependency (fun _ => none) "open3d" none (some "1.0")).is_old = true ∧
    (mkPythonDependency (fun _ => none) "open3d" none (some "1.0")).is_installed = false :=
  ⟨rfl, rfl⟩

/-- C3 amended: `is_old = true` implies a real (non-sentinel) minimum-version
floor was parsed; it does not imply `is_installed`: for a package that was
never found, `is_old` holds exactly when a real minimum floor is declared. -/
theorem is_old_vs_installed (env : Env) (i : String) (im mv : Option String) :
    ((mkPythonDependency env i im mv).is_old = true →
      (mkPythonDependency env i im mv).min_version ≠ Version.empty) ∧
    ((mkPythonDependency env i im mv).is_installed = false →
      (mkPythonDependency env i im mv).is_old
        = !(mkPythonDependency env i im mv).min_version.isEmpty) := by
  constructor
  · intro h
    exact Version.lt_right_ne_empty h
  · intro h
    have hinst : (env (im.getD i)).isSome = false := h
    cases hM : env (im.getD i) with
    | some m => rw [hM] at hinst; simp at hinst
    | none =>
      show Version.lt
          (_parse_version ((env (im.getD i)).bind Module.version_attr))
          (_parse_version mv)
        = !(_parse_version mv).isEmpty
      rw [hM]
      exact Version.empty_lt_iff_not_isEmpty (_parse_version mv)

/-- Witness for C3 amended at a concrete missing package with floor `2.0`. -/
theorem is_old_vs_installed_witness :
    (mkPythonDependency (fun _ => none) "pydot" none (some "2.0")).min_version
        ≠ Version.empty ∧
    (mkPythonDependency (fun _ => none) "pydot" none (some "2.0")).is_old
      = !(mkPythonDependency (fun _ => none) "pydot" none
          (some "2.0")).min_version.isEmpty :=
  ⟨(is_old_vs_installed (fun _ => none) "pydot" none (some "2.0")).1 rfl,
   (is_old_vs_installed (fun _ => none) "pydot" none (some "2.0")).2 rfl⟩

/-- C10: constructing with `min_version` null leaves `is_old = false` and an
empty `too_old_error_message`, for every environment, package and import
name: the minimum parses to the sentinel, and no version compares strictly
below the sentinel. -/
theorem no_floor_never_old (env : Env) (i : String) (im : Option String) :
    (mkPythonDependency env i im none).is_old = false ∧
    (mkPythonDependency env i im none).too_old_error_message = "" := by
  have h : (mkPythonDependency env i im none).is_old = false := by
    show Version.lt
        (_parse_version ((env (im.getD i)).bind Module.version_attr))
        (_parse_version none)
      = false
    exact Version.lt_empty_right _
  refine ⟨h, ?_⟩
  show (if (mkPythonDependency env i im none).is_old = true then _ else "") = ""
  rw [h]
  simp

/-- C5 counterexample: for a descriptor constructed without a minimum
version, `too_old_error_message` is the empty string (while
`missing_error_message` is populated), so the two messages are not both
non-empty regardless of `is_installed` and `is_old`. -/
theorem too_old_message_empty_when_not_old :
    (mkPythonDependency (fun _ => none) "matplotlib" none none).too_old_error_message
        = "" ∧
    (mkPythonDependency (fun _ => none) "matplotlib" none none).missing_error_message
        ≠ "" :=
  ⟨rfl, by decide⟩

/-- C5 amended: after construction, `missing_error_message` is always a
non-empty string; `too_old_error_message` is non-empty exactly when
`is_old` holds. Both are derived deterministically from the install name,
the parsed minimum version and the parsed installed version: two
constructions agreeing on those three agree on both messages. -/
theorem error_messages_populated (env : Env) (i : String) (im mv : Option String) :
    (mkPythonDependency env i im mv).missing_error_message ≠ "" ∧
    ((mkPythonDependency env i im mv).is_old = true →
      (mkPythonDependency env i im mv).too_old_error_message ≠ "") ∧
    ((mkPythonDependency env i im mv).is_old = false →
      (mkPythonDependency env i im mv).too_old_error_message = "") ∧
    ∀ (env2 : Env) (im2 mv2 : Option String),
      (mkPythonDependency env2 i im2 mv2).version
          = (mkPythonDependency env i im mv).version →
      (mkPythonDependency env2 i im2 mv2).min_version
          = (mkPythonDependency env i im mv).min_version →
      (mkPythonDependency env2 i im2 mv2).missing_error_message
          = (mkPythonDependency env i im mv).missing_error_message ∧
      (mkPythonDependency env2 i im2 mv2).too_old_error_message
          = (mkPythonDependency env i im mv).too_old_error_message := by
  refine ⟨?_, ?_, ?_, ?_⟩
  · show "Missing optional dependency \x27" ++ i ++ "\x27 for " ++
      PACKAGE_NAME ++ ". Use pip or conda to install " ++ i ++ "." ≠ ""
    repeat' apply append_ne_empty_left
    decide
  · intro h
    show (if (mkPythonDependency env i im mv).is_old = true then
        PACKAGE_NAME ++ " requires version \x27" ++ _ else "") ≠ ""
    rw [h]
    simp only [if_pos]
    repeat' apply append_ne_empty_left
    decide
  · intro h
    show (if (mkPythonDependency env i im mv).is_old = true then _ else "") = ""
    rw [h]
    simp
  · intro env2 im2 mv2 hv hm
    have hold : (mkPythonDependency env2 i im2 mv2).is_old
        = (mkPythonDependency env i im mv).is_old := by
      show Version.lt (mkPythonDependency env2 i im2 mv2).version
          (mkPythonDependency env2 i im2 mv2).min_version
        = Version.lt (mkPythonDependency env i im mv).version
          (mkPythonDependency env i im mv).min_version
      rw [hv, hm]
    refine ⟨rfl, ?_⟩
    show (if (mkPythonDependency env2 i im2 mv2).is_old = true then
        PACKAGE_NAME ++ " requires version \x27" ++
          Version.str (mkPythonDependency env2 i im2 mv2).min_version ++
          "\x27 of " ++ i ++ ". Use pip or conda to install " ++ i ++ "==" ++
          Version.str (mkPythonDependency env2 i im2 mv2).min_version ++
          ". (version \x27" ++
          Version.str (mkPythonDependency env2 i im2 mv2).version ++
          "\x27 is currently installed)"
      else "")
      = (if (mkPythonDependency env i im mv).is_old = true then
        PACKAGE_NAME ++ " requires version \x27" ++
          Version.str (mkPythonDependency env i im mv).min_version ++
          "\x27 of " ++ i ++ ". Use pip or conda to install " ++ i ++ "==" ++
          Version.str (mkPythonDependency env i im mv).min_version ++
          ". (version \x27" ++
          Version.str (mkPythonDependency env i im mv).version ++
          "\x27 is currently installed)"
      else "")
    rw [hv, hm, hold]

/-- Witness for C5 amended, at a missing package with floor `3.0` (old) and
the same package without a floor (not old). -/
theorem error_messages_populated_witness :
    (mkPythonDependency (fun _ => none) "trimesh" none (some "3.0")).missing_error_message
        ≠ "" ∧
    (mkPythonDependency (fun _ => none) "trimesh" none (some "3.0")).too_old_error_message
        ≠ "" ∧
    (mkPythonDependency (fun _ => none) "trimesh" none none).too_old_error_message
        = "" ∧
    ((mkPythonDependency (fun _ => some ⟨"trimesh", none⟩) "trimesh" none
          (some "3.0")).missing_error_message
        = (mkPythonDependency (fun _ => none) "trimesh" none
            (some "3.0")).missing_error_message ∧
     (mkPythonDependency (fun _ => some ⟨"trimesh", none⟩) "trimesh" none
          (some "3.0")).too_old_error_message
        = (mkPythonDependency (fun _ => none) "trimesh" none
            (some "3.0")).too_old_error_message) :=
  ⟨(error_messages_populated (fun _ => none) "trimesh" none (some "3.0")).1,
   (error_messages_populated (fun _ => none) "trimesh" none (some "3.0")).2.1 rfl,
   (error_messages_populated (fun _ => none) "trimesh" none none).2.2.1 rfl,
   (error_messages_populated (fun _ => none) "trimesh" none (some "3.0")).2.2.2
     (fun _ => some ⟨"trimesh", none⟩) none (some "3.0") rfl rfl⟩

/-- C6: descriptor construction is a total function (no exception
propagates); when the import attempt fails, the failure is recorded as
`is_installed = false` and `module = null`. -/
theorem construction_absorbs_import_failure (env : Env) (i : String)
    (im mv : Option String) (h : env (im.getD i) = none) :
    (mkPythonDependency env i im mv).is_installed = false ∧
    (mkPythonDependency env i im mv).module = none := by
  constructor
  · show (env (im.getD i)).isSome = false
    rw [h]
    rfl
  · show env (im.getD i) = none
    exact h

/-- Witness for C6 at a concrete environment in which no import succeeds. -/
theorem construction_absorbs_import_failure_witness :
    ((fun _ => (none : Option Module)) ((none : Option String).getD "lxml")
        = none) ∧
    ((mkPythonDependency (fun _ => none) "lxml" none none).is_installed = false ∧
     (mkPythonDependency (fun _ => none) "lxml" none none).module = none) :=
  ⟨rfl, construction_absorbs_import_failure (fun _ => none) "lxml" none none rfl⟩

/-- C8: on a usable descriptor (installed and not old),
`import_optional_dependency` returns the descriptor module for every
policy, raising nothing and emitting no warning. -/
theorem resolve_usable_returns_module (d : PythonDependency)
    (p : OptionalImportErrorHandling)
    (hInst : d.is_installed = true) (hOld : d.is_old = false) :
    (import_optional_dependency d p) = ResolveOutcome.returned [] d.module := by
  simp [import_optional_dependency, hInst, hOld]

/-- Witness for C8 at a concrete environment providing `scipy`, under the
IGNORE policy. -/
theorem resolve_usable_returns_module_witness :
    (mkPythonDependency
        (fun n => if n = "scipy" then some ⟨"scipy", some "1.8.0"⟩ else none)
        "scipy" none none).is_installed = true ∧
    (mkPythonDependency
        (fun n => if n = "scipy" then some ⟨"scipy", some "1.8.0"⟩ else none)
        "scipy" none none).is_old = false ∧
    (import_optional_dependency
        (mkPythonDependency
          (fun n => if n = "scipy" then some ⟨"scipy", some "1.8.0"⟩ else none)
          "scipy" none none)
        OptionalImportErrorHandling.IGNORE)
      = ResolveOutcome.returned []
          (mkPythonDependency
            (fun n => if n = "scipy" then some ⟨"scipy", some "1.8.0"⟩ else none)
            "scipy" none none).module :=
  ⟨rfl, rfl,
   resolve_usable_returns_module
     (mkPythonDependency
       (fun n => if n = "scipy" then some ⟨"scipy", some "1.8.0"⟩ else none)
       "scipy" none none)
     OptionalImportErrorHandling.IGNORE rfl rfl⟩

/-- C1 (failing-input evaluation): on an unusable descriptor the resolver
raises `ImportError` under WARN and under IGNORE as well, because
`if error_handling.RAISE:` tests the truthiness of the always-truthy member
`RAISE` rather than comparing the policy with it; the claim says only the
RAISE policy may raise. -/
theorem resolve_raises_under_warn_and_ignore :
    (import_optional_dependency
        (mkPythonDependency (fun _ => none) "open3d" none none)
        OptionalImportErrorHandling.WARN)
      = ResolveOutcome.raised
          (mkPythonDependency (fun _ => none) "open3d"
            none none).missing_error_message ∧
    (import_optional_dependency
        (mkPythonDependency (fun _ => none) "open3d" none none)
        OptionalImportErrorHandling.IGNORE)
      = ResolveOutcome.raised
          (mkPythonDependency (fun _ => none) "open3d"
            none none).missing_error_message :=
  ⟨rfl, rfl⟩

/-- C4 (failing-input evaluation): on a missing dependency under the WARN
policy the resolver does not return null with one warning: it raises
`ImportError` (so zero warnings are emitted), again because
`if error_handling.RAISE:` is always truthy. -/
theorem resolve_warn_emits_no_warning :
    (import_optional_dependency
        (mkPythonDependency (fun _ => none) "lxml" none (some "4.0"))
        OptionalImportErrorHandling.WARN)
      = ResolveOutcome.raised
          (mkPythonDependency (fun _ => none) "lxml"
            none (some "4.0")).too_old_error_message :=
  rfl

/-- C9: for every environment, `get_optional_dependencies_for_setup_py`
returns exactly the declared feature-group names, each mapped to the
install-name strings of the declared descriptors of the group, in
declaration order. -/
theorem setup_py_mapping (env : Env) :
    get_optional_dependencies_for_setup_py env =
      [ ("plotting_2d", ["matplotlib"])
      , ("plotting_3d", ["trimesh"])
      , ("editor", ["PyQt5", "matplotlib"])
      , ("urdf", ["beautifulsoup4", "lxml"])
      , ("rendering", ["open3d"])
      , ("transform_manager", ["scipy"])
      , ("graph_visualization", ["pydot"])
      , ("documentation",
          ["numpydoc_module", "sphinx_module", "sphinx-gallery",
           "sphinx-bootstrap-theme"])
      , ("tests", ["pytest", "pytest-cov"]) ] := rfl

end Compatibility
